import Mathlib

/-!
Verification development for `src/reftest/db.py`, a small catalog tool for
reference test files.  The Python module is embedded shallowly:

* a FITS header (`astropy.io.fits.getheader`) becomes a `Header` record of
  optional strings; the filesystem becomes a map `String → Option Header`
  where `none` means the file is missing, unreadable, or not a valid FITS
  file (in which case `fits.getheader` raises);
* the SQLite table `test_data` becomes a `DB`: a list of `TestData` rows in
  insertion order plus a counter for the store-assigned surrogate id;
* a SQLAlchemy query produced by `session.query(TestData).filter_by(**args)`
  becomes a `Query`: the argument tuple of the `filter_by` call.  The query
  is lazy — `Query.countRun` and `Query.firstRun` execute it against the
  session state at the moment they are called, mirroring that `.count()`
  and `.first()` re-issue the SELECT each time;
* Python exceptions become `Except` / explicit error components; each
  mutating branch of `add_test_data` ends in `session.commit()`, so the
  model applies row mutations eagerly.
-/

/-- A FITS header restricted to the fields `db.py` reads.  `header.get(k)`
returns `None` when the keyword is absent, hence `Option String`. -/
structure Header where
  DATE_OBS : Option String
  TIME_OBS : Option String
  INSTRUME : Option String
  READPATT : Option String
  EXP_TYPE : Option String
  DETECTOR : Option String
  BAND : Option String
  CHANNEL : Option String
  FILTER : Option String
  PUPIL : Option String
  GRATING : Option String
  SUBARRAY : Option String
  SUBSTRT1 : Option String
  SUBSTRT2 : Option String
  SUBSIZE1 : Option String
  SUBSIZE2 : Option String
deriving DecidableEq, Repr

/-- A row of the `test_data` table (class `TestData`, `db.py` lines 35-56):
a surrogate integer id, the source filename, and the sixteen header fields
copied verbatim at ingestion time. -/
structure TestData where
  id : Nat
  filename : String
  DATE_OBS : Option String
  TIME_OBS : Option String
  INSTRUME : Option String
  READPATT : Option String
  EXP_TYPE : Option String
  DETECTOR : Option String
  BAND : Option String
  CHANNEL : Option String
  FILTER : Option String
  PUPIL : Option String
  GRATING : Option String
  SUBARRAY : Option String
  SUBSTRT1 : Option String
  SUBSTRT2 : Option String
  SUBSIZE1 : Option String
  SUBSIZE2 : Option String
deriving DecidableEq, Repr

/-- The catalog state: rows in insertion order and the next surrogate id the
store will assign.  The id is assigned by the storage engine at commit; it is
modelled as a monotonic counter. -/
structure DB where
  rows : List TestData
  nextId : Nat
deriving DecidableEq, Repr

/-- The empty, freshly created catalog. -/
def DB.empty : DB := { rows := [], nextId := 0 }

/-- Well-formedness of a catalog state: every stored id was assigned before
the current counter value.  Every state reachable from `DB.empty` by the
operations below satisfies it. -/
def DB.WF (db : DB) : Prop := ∀ r, r ∈ db.rows → r.id < db.nextId

/-- The argument tuple of the `filter_by(**args)` call built by
`data_exists` (`db.py` lines 99-115).  Note the source builds this dict from
fourteen header fields only: `DATE-OBS` and `TIME-OBS` are stored in the
table but never placed in `args`. -/
structure Query where
  INSTRUME : Option String
  DETECTOR : Option String
  CHANNEL : Option String
  FILTER : Option String
  PUPIL : Option String
  BAND : Option String
  GRATING : Option String
  EXP_TYPE : Option String
  READPATT : Option String
  SUBARRAY : Option String
  SUBSTRT1 : Option String
  SUBSTRT2 : Option String
  SUBSIZE1 : Option String
  SUBSIZE2 : Option String
deriving DecidableEq, Repr

/-- Build the `filter_by` argument tuple from a header, field for field as in
`data_exists` lines 100-113. -/
def mkQuery (h : Header) : Query :=
  { INSTRUME := h.INSTRUME
    DETECTOR := h.DETECTOR
    CHANNEL := h.CHANNEL
    FILTER := h.FILTER
    PUPIL := h.PUPIL
    BAND := h.BAND
    GRATING := h.GRATING
    EXP_TYPE := h.EXP_TYPE
    READPATT := h.READPATT
    SUBARRAY := h.SUBARRAY
    SUBSTRT1 := h.SUBSTRT1
    SUBSTRT2 := h.SUBSTRT2
    SUBSIZE1 := h.SUBSIZE1
    SUBSIZE2 := h.SUBSIZE2 }

/-- Row predicate of the generated SELECT: `filter_by` compares each named
column for equality; SQLAlchemy translates a `None` value to `IS NULL`, so an
absent field matches exactly the rows where that field is also absent —
`Option` equality captures both cases. -/
def Query.matchesRow (q : Query) (r : TestData) : Bool :=
  r.INSTRUME == q.INSTRUME && r.DETECTOR == q.DETECTOR && r.CHANNEL == q.CHANNEL &&
  r.FILTER == q.FILTER && r.PUPIL == q.PUPIL && r.BAND == q.BAND &&
  r.GRATING == q.GRATING && r.EXP_TYPE == q.EXP_TYPE && r.READPATT == q.READPATT &&
  r.SUBARRAY == q.SUBARRAY && r.SUBSTRT1 == q.SUBSTRT1 && r.SUBSTRT2 == q.SUBSTRT2 &&
  r.SUBSIZE1 == q.SUBSIZE1 && r.SUBSIZE2 == q.SUBSIZE2

/-- Execute `query.count()`: a SELECT COUNT against the current session
state.  SQL SELECT statements read and never write, so the session state is
returned unchanged. -/
def Query.countRun (q : Query) (db : DB) : Nat × DB :=
  ((db.rows.filter q.matchesRow).length, db)

/-- Execute `query.first()`: the first row of the result in store order,
which for this SQLite table is insertion order; `none` when the result set
is empty.  A SELECT, hence the session state is returned unchanged. -/
def Query.firstRun (q : Query) (db : DB) : Option TestData × DB :=
  (db.rows.find? q.matchesRow, db)

/-- `os.path.abspath`: operating-system path normalisation, outside the
catalog logic.  Paths in this development are taken to be already absolute,
so it is the identity. -/
def abspath (p : String) : String := p

/-- `TestData.__init__` (`db.py` lines 59-80): read the file's header and
copy the sixteen fields into a fresh row; `none` when `fits.getheader`
raises because the file is unreadable. -/
def TestData.fromFile (fs : String → Option Header) (nid : Nat) (fname : String) :
    Option TestData :=
  (fs fname).map fun h =>
    { id := nid
      filename := abspath fname
      DATE_OBS := h.DATE_OBS
      TIME_OBS := h.TIME_OBS
      INSTRUME := h.INSTRUME
      READPATT := h.READPATT
      EXP_TYPE := h.EXP_TYPE
      DETECTOR := h.DETECTOR
      BAND := h.BAND
      CHANNEL := h.CHANNEL
      FILTER := h.FILTER
      PUPIL := h.PUPIL
      GRATING := h.GRATING
      SUBARRAY := h.SUBARRAY
      SUBSTRT1 := h.SUBSTRT1
      SUBSTRT2 := h.SUBSTRT2
      SUBSIZE1 := h.SUBSIZE1
      SUBSIZE2 := h.SUBSIZE2 }

/-- `data_exists` (`db.py` lines 82-116): read the candidate file's header
(raising `HeaderReadError` if unreadable), build the fourteen-field
`filter_by` argument tuple, and return the lazy query together with the
session it is bound to.  No SQL is executed here. -/
def data_exists (fname : String) (fs : String → Option Header) (session : DB) :
    Except String (Query × DB) :=
  match fs fname with
  | none => Except.error ("HeaderReadError: " ++ fname)
  | some h => Except.ok (mkQuery h, session)

/-- `load_session` (`db.py` lines 119-146).  `envDefault` is the value of
`REFTEST_DB` captured at import time.  Returns the connected session —
modelled as the resolved path — or `none` together with the printed message
when no path is resolvable; the configuration failure is printed, not
raised. -/
def load_session (db_path envDefault : Option String) : Option String × String :=
  match db_path with
  | some p => (some p, "Connected to DB at " ++ p)
  | none =>
    match envDefault with
    | none => (none, "REFTEST_DB is None, please specify a database")
    | some p => (some p, "Connected to DB at " ++ p)

/-- `Base.metadata.create_all(engine)`: the storage engine creates the
`test_data` table if and only if it does not already exist; existing rows
are untouched.  `none` models a path with no catalog yet, `some rows` an
existing catalog holding `rows`. -/
def create_all (cat : Option (List TestData)) : Option (List TestData) :=
  match cat with
  | none => some []
  | some rows => some rows

/-- `create_test_data_db` (`db.py` lines 149-161): connect to `db_path`,
run `create_all`, print a confirmation.  Total: it raises nothing. -/
def create_test_data_db (db_path : String) (cat : Option (List TestData)) :
    Option (List TestData) × String :=
  (create_all cat, "CREATED DB: " ++ db_path)

/-- One iteration of the `add_test_data` loop body (`db.py` lines 185-198)
for a single glob match `fname`; `file_path` is the original glob pattern,
which the printed messages interpolate.  On success, the new session state
and the printed message; on an uncaught exception, the exception text and
the session state already committed when it was raised.

The source decision logic, faithfully:
line 186 `if query_result.count() != 0 and not (force or replace)` — skip;
line 188 `elif query_result and replace` — a SQLAlchemy `Query` object is
always truthy, so this branch is taken whenever `replace` is set, even with
an empty result, and `session.delete(query_result.first())` then receives
`None` and raises `UnmappedInstanceError`;
line 192 re-evaluates `query_result.first()` after the commit for the
message (if that returned `None`, `.filename` would raise; the error carries
the already-committed state);
line 194 `else` — plain insert and commit. -/
def add_one (fs : String → Option Header) (file_path fname : String)
    (force replace : Bool) (db : DB) : Except (String × DB) (DB × String) :=
  match data_exists fname fs db with
  | Except.error e => Except.error (e, db)
  | Except.ok (q, db0) =>
    if (q.countRun db0).fst != 0 && !(force || replace) then
      Except.ok (db0,
        "There is already test data with the same parameters. To add the data anyway set force=True")
    else if replace then
      match (q.firstRun db0).fst with
      | none => Except.error ("UnmappedInstanceError: session.delete called on None", db0)
      | some r =>
        let db1 : DB := { rows := db0.rows.eraseP (fun x => x == r), nextId := db0.nextId }
        match TestData.fromFile fs db1.nextId fname with
        | none => Except.error ("HeaderReadError: " ++ fname, db1)
        | some t =>
          let db2 : DB := { rows := db1.rows ++ [t], nextId := db1.nextId + 1 }
          match (q.firstRun db2).fst with
          | none => Except.error ("AttributeError: NoneType has no attribute filename", db2)
          | some r2 => Except.ok (db2, "Replaced " ++ r2.filename ++ " with " ++ file_path)
    else
      match TestData.fromFile fs db0.nextId fname with
      | none => Except.error ("HeaderReadError: " ++ fname, db0)
      | some t =>
        Except.ok ({ rows := db0.rows ++ [t], nextId := db0.nextId + 1 },
          "Added " ++ file_path ++ " to database")

/-- `add_test_data` (`db.py` lines 163-198) after glob expansion: `matches`
is the list `glob.glob(file_path)` in order.  The loop body has no
exception handler, so the first uncaught exception aborts the remaining
iterations; the returned state keeps everything committed before the abort,
and the third component records the aborting exception, if any. -/
def add_test_data (fs : String → Option Header) (file_path : String)
    (force replace : Bool) : List String → DB → DB × List String × Option String
  | [], db => (db, [], none)
  | fname :: rest, db =>
    match add_one fs file_path fname force replace db with
    | Except.error (e, dbe) => (dbe, [], some e)
    | Except.ok (db1, m) =>
      let r := add_test_data fs file_path force replace rest db1
      (r.fst, m :: r.snd.fst, r.snd.snd)

/-- Modelled from the spec: the duplicate key as §3 of the specification
words it — "the tuple of all metadata attributes excluding `filename` and
`id`", i.e. including observation date and observation time.  Declared only
to compare the specification's key with the key the source actually filters
on (`mkQuery`). -/
def specDupKey (h : Header) : List (Option String) :=
  [h.DATE_OBS, h.TIME_OBS, h.INSTRUME, h.READPATT, h.EXP_TYPE, h.DETECTOR,
   h.BAND, h.CHANNEL, h.FILTER, h.PUPIL, h.GRATING, h.SUBARRAY,
   h.SUBSTRT1, h.SUBSTRT2, h.SUBSIZE1, h.SUBSIZE2]

/-! ### Concrete fixtures used by witnesses and counterexamples -/

/-- A concrete MIRI imaging header. -/
def hA : Header :=
  { DATE_OBS := some "2021-01-01", TIME_OBS := some "00:00:00"
    INSTRUME := some "MIRI", READPATT := some "FAST", EXP_TYPE := some "MIR_IMAGE"
    DETECTOR := some "MIRIMAGE", BAND := none, CHANNEL := none
    FILTER := some "F770W", PUPIL := none, GRATING := none
    SUBARRAY := some "FULL", SUBSTRT1 := some "1", SUBSTRT2 := some "1"
    SUBSIZE1 := some "1032", SUBSIZE2 := some "1024" }

/-- Same exposure parameters as `hA`, taken a day later: the two headers
agree on all fourteen fields `data_exists` filters on and differ only in
`DATE-OBS`. -/
def hB : Header := { hA with DATE_OBS := some "2021-01-02" }

/-- A header differing from `hA` in `INSTRUME`. -/
def hC : Header := { hA with INSTRUME := some "NIRCAM" }

/-- A concrete filesystem: three readable FITS files and one unreadable
path (`x.fits`, on which `fits.getheader` raises). -/
def fsA : String → Option Header := fun s =>
  if s = "a.fits" then some hA
  else if s = "b.fits" then some hB
  else if s = "c.fits" then some hC
  else none

/-- The row `TestData("a.fits")` receives when ingested into the empty
catalog (surrogate id 0). -/
def rowA0 : TestData :=
  { id := 0, filename := "a.fits"
    DATE_OBS := some "2021-01-01", TIME_OBS := some "00:00:00"
    INSTRUME := some "MIRI", READPATT := some "FAST", EXP_TYPE := some "MIR_IMAGE"
    DETECTOR := some "MIRIMAGE", BAND := none, CHANNEL := none
    FILTER := some "F770W", PUPIL := none, GRATING := none
    SUBARRAY := some "FULL", SUBSTRT1 := some "1", SUBSTRT2 := some "1"
    SUBSIZE1 := some "1032", SUBSIZE2 := some "1024" }

/-! ### Helper lemmas -/

/-- A non-empty filtered result yields a first row, which is a member
satisfying the predicate. -/
theorem find?_of_filter_ne_zero {α : Type} {p : α → Bool} {l : List α}
    (h : (l.filter p).length ≠ 0) :
    ∃ r, l.find? p = some r ∧ r ∈ l ∧ p r = true := by
  have hne : l.filter p ≠ [] := by
    intro hnil
    exact h (by simp [hnil])
  obtain ⟨x, hx⟩ := List.exists_mem_of_ne_nil _ hne
  obtain ⟨hxl, hpx⟩ := List.mem_filter.mp hx
  have hs : (l.find? p).isSome := List.find?_isSome.mpr ⟨x, hxl, hpx⟩
  obtain ⟨r, hr⟩ := Option.isSome_iff_exists.mp hs
  exact ⟨r, hr, List.mem_of_find?_eq_some hr, List.find?_some hr⟩

/-- When exactly one row matches the predicate, erasing the first row equal
to the query's first result removes that row's every occurrence. -/
theorem not_mem_eraseP_of_filter_one {α : Type} [DecidableEq α] {p : α → Bool}
    {l : List α} {r : α} (hp : p r = true) (h1 : (l.filter p).length = 1)
    (hr : l.find? p = some r) :
    r ∉ l.eraseP (fun x => x == r) := by
  induction l with
  | nil => simp at hr
  | cons a tl ih =>
    by_cases pa : p a = true
    · rw [List.find?_cons_of_pos _ pa] at hr
      have ha : a = r := by injection hr
      subst ha
      rw [List.filter_cons_of_pos pa] at h1
      have htl : tl.filter p = [] := by
        simpa using h1
      rw [List.eraseP_cons_of_pos (by simp)]
      intro hmem
      have : a ∈ tl.filter p := List.mem_filter.mpr ⟨hmem, hp⟩
      simp [htl] at this
    · rw [List.find?_cons_of_neg _ pa] at hr
      rw [List.filter_cons_of_neg (by simpa using pa)] at h1
      have hane : a ≠ r := by
        intro e
        exact pa (e ▸ hp)
      rw [List.eraseP_cons_of_neg (by simpa using hane)]
      intro hmem
      rcases List.mem_cons.mp hmem with he | hmem2
      · exact hane he.symm
      · exact ih h1 hr hmem2

/-! ### Claim theorems -/

/-- C6: `create_test_data_db` is idempotent in the stated sense: invoking it
a second time against an existing catalog returns without error (the
function is total) and neither erases nor resets any records already
present — schema creation is a no-op on an existing catalog. -/
theorem C6_idempotent_create (db_path : String) (cat : Option (List TestData)) :
    (create_test_data_db db_path (create_test_data_db db_path cat).fst).fst
      = (create_test_data_db db_path cat).fst
    ∧ ∀ rows : List TestData,
        (create_test_data_db db_path (some rows)).fst = some rows := by
  refine ⟨?_, fun rows => rfl⟩
  cases cat <;> rfl

/-- C8: `load_session` with no explicit path and no environment default
reports the configuration failure by printing a message and returning no
session (`none`) rather than raising; when either an explicit path or the
environment default is available, it connects to that path (the explicit
argument taking precedence). -/
theorem C8_load_session_config :
    load_session none none = (none, "REFTEST_DB is None, please specify a database")
    ∧ (∀ p e, load_session (some p) e = (some p, "Connected to DB at " ++ p))
    ∧ (∀ p, load_session none (some p) = (some p, "Connected to DB at " ++ p)) :=
  ⟨rfl, fun _ _ => rfl, fun _ => rfl⟩

/-- C10: `data_exists` never mutates the catalog: building the query and
then evaluating both its count and its first result leaves the session
state exactly as it was, whether or not the header read succeeds. -/
theorem C10_data_exists_pure (fname : String) (fs : String → Option Header) (db : DB) :
    (match data_exists fname fs db with
     | Except.error _ => db
     | Except.ok (q, db1) => (q.firstRun (q.countRun db1).snd).snd) = db := by
  unfold data_exists
  cases fs fname <;> simp [Query.countRun, Query.firstRun]

/-- C2 (code bug): with `replace` set and no matching record, the claim —
and the spec's decision policy — require a plain insert; instead, line 188
`elif query_result and replace` is taken because a SQLAlchemy `Query`
object is always truthy, and `session.delete(query_result.first())` then
receives `None` and raises, ingesting nothing.  Evaluated here on an empty
catalog. -/
theorem C2_replace_no_match_crash :
    add_one fsA "a.fits" "a.fits" false true DB.empty
      = Except.error ("UnmappedInstanceError: session.delete called on None", DB.empty) := rfl

/-- C7: when a duplicate-key match exists and neither `force` nor `replace`
is set, `add_test_data`'s loop body skips the file: it returns the
duplicate-data message and leaves the catalog state completely unchanged. -/
theorem C7_duplicate_skip (fs : String → Option Header) (file_path fname : String)
    (db : DB) (h : Header) (hf : fs fname = some h)
    (hmatch : (db.rows.filter (mkQuery h).matchesRow).length ≠ 0) :
    add_one fs file_path fname false false db
      = Except.ok (db,
          "There is already test data with the same parameters. To add the data anyway set force=True") := by
  unfold add_one data_exists
  rw [hf]
  simp [Query.countRun, hmatch]

/-- C7 witness: a catalog holding the row for `a.fits` and a second
ingestion attempt for `a.fits` without `force`/`replace`. -/
theorem C7_duplicate_skip_witness :
    add_one fsA "a.fits" "a.fits" false false { rows := [rowA0], nextId := 1 }
      = Except.ok ({ rows := [rowA0], nextId := 1 },
          "There is already test data with the same parameters. To add the data anyway set force=True") :=
  C7_duplicate_skip fsA "a.fits" "a.fits" { rows := [rowA0], nextId := 1 } hA rfl (by decide)

/-- C5: with `force` set (and `replace` unset, as the `force` CLI verb
invokes it), the loop body always appends one freshly built row and
commits, increasing the record count by exactly one regardless of how many
existing records match the duplicate key. -/
theorem C5_force_inserts (fs : String → Option Header) (file_path fname : String)
    (db : DB) (h : Header) (hf : fs fname = some h) :
    ∃ t : TestData,
      TestData.fromFile fs db.nextId fname = some t
      ∧ add_one fs file_path fname true false db
          = Except.ok ({ rows := db.rows ++ [t], nextId := db.nextId + 1 },
              "Added " ++ file_path ++ " to database")
      ∧ (db.rows ++ [t]).length = db.rows.length + 1 := by
  unfold add_one data_exists TestData.fromFile
  rw [hf]
  simp

/-- C5 witness: forcing a duplicate of `a.fits` into a catalog that already
holds its row grows the catalog from one record to two. -/
theorem C5_force_inserts_witness :
    ∃ t : TestData,
      TestData.fromFile fsA 1 "a.fits" = some t
      ∧ add_one fsA "a.fits" "a.fits" true false { rows := [rowA0], nextId := 1 }
          = Except.ok ({ rows := [rowA0] ++ [t], nextId := 2 },
              "Added " ++ "a.fits" ++ " to database")
      ∧ ([rowA0] ++ [t]).length = [rowA0].length + 1 :=
  C5_force_inserts fsA "a.fits" "a.fits" { rows := [rowA0], nextId := 1 } hA rfl

/-- C1 (amended): after the first file is ingested into an empty catalog,
`data_exists` for a second file returns a non-empty match exactly when the
two files' headers agree field-wise on the fourteen fields `data_exists`
actually filters on — all metadata attributes excluding `filename`, `id`,
and also excluding observation date and observation time, which the query
never constrains. -/
theorem C1_amended_dup_key (fs : String → Option Header) (f1 f2 : String)
    (h1 h2 : Header) (hf1 : fs f1 = some h1) (hf2 : fs f2 = some h2) :
    ∃ db1 m, add_one fs f1 f1 false false DB.empty = Except.ok (db1, m)
      ∧ ∀ q db2, data_exists f2 fs db1 = Except.ok (q, db2) →
          ((q.countRun db2).fst ≠ 0 ↔ mkQuery h1 = mkQuery h2) := by
  unfold add_one data_exists TestData.fromFile
  rw [hf1]
  simp only [Option.map_some, DB.empty, Query.countRun, List.filter_nil,
    List.length_nil, bne_self_eq_false, Bool.false_and, Bool.if_false_left,
    Bool.and_true, Bool.not_eq_eq_eq_not, Bool.not_true, if_false,
    Bool.false_eq_true, ite_false]
  refine ⟨_, _, rfl, ?_⟩
  intro q db2 heq
  rw [hf2] at heq
  injection heq with heq1
  injection heq1 with hq hdb
  subst hq
  subst hdb
  simp only [Query.countRun, List.filter, Query.matchesRow, mkQuery, Query.mk.injEq]
  constructor
  · intro hne
    by_cases hm : (h1.INSTRUME == h2.INSTRUME && h1.DETECTOR == h2.DETECTOR &&
        h1.CHANNEL == h2.CHANNEL && h1.FILTER == h2.FILTER && h1.PUPIL == h2.PUPIL &&
        h1.BAND == h2.BAND && h1.GRATING == h2.GRATING && h1.EXP_TYPE == h2.EXP_TYPE &&
        h1.READPATT == h2.READPATT && h1.SUBARRAY == h2.SUBARRAY &&
        h1.SUBSTRT1 == h2.SUBSTRT1 && h1.SUBSTRT2 == h2.SUBSTRT2 &&
        h1.SUBSIZE1 == h2.SUBSIZE1 && h1.SUBSIZE2 == h2.SUBSIZE2) = true
    · simp only [Bool.and_eq_true, beq_iff_eq] at hm
      tauto
    · exfalso
      apply hne
      simp only [hm]
      rfl
  · intro hm
    obtain ⟨e1, e2, e3, e4, e5, e6, e7, e8, e9, e10, e11, e12, e13, e14⟩ := hm
    simp [e1, e2, e3, e4, e5, e6, e7, e8, e9, e10, e11, e12, e13, e14]

/-- C1 witness: `a.fits` and `b.fits` agree on all fourteen filtered fields,
so after ingesting the first, the query for the second is non-empty. -/
theorem C1_amended_dup_key_witness :
    ∃ db1 m, add_one fsA "a.fits" "a.fits" false false DB.empty = Except.ok (db1, m)
      ∧ ∀ q db2, data_exists "b.fits" fsA db1 = Except.ok (q, db2) →
          ((q.countRun db2).fst ≠ 0 ↔ mkQuery hA = mkQuery hB) :=
  C1_amended_dup_key fsA "a.fits" "b.fits" hA hB rfl rfl

/-- C1 counterexample to the claim as stated: `a.fits` and `b.fits` differ
in one field of the spec's duplicate-key tuple (observation date), so the
claim requires `data_exists` for `b.fits` to return empty after `a.fits` is
ingested; the code's query ignores `DATE-OBS`/`TIME-OBS` and returns one
match. -/
theorem C1_counterexample :
    specDupKey hA ≠ specDupKey hB
    ∧ add_one fsA "a.fits" "a.fits" false false DB.empty
        = Except.ok ({ rows := [rowA0], nextId := 1 }, "Added a.fits to database")
    ∧ data_exists "b.fits" fsA { rows := [rowA0], nextId := 1 }
        = Except.ok (mkQuery hB, { rows := [rowA0], nextId := 1 })
    ∧ ((mkQuery hB).countRun { rows := [rowA0], nextId := 1 }).fst = 1 :=
  ⟨by decide, rfl, rfl, rfl⟩

/-- A row built by `TestData.__init__` from a header matches the query built
from the same header, and carries the file's (absolute) path and the
assigned id. -/
theorem fromFile_fields (fs : String → Option Header) (nid : Nat) (fname : String)
    (h : Header) (t : TestData) (hf : fs fname = some h)
    (ht : TestData.fromFile fs nid fname = some t) :
    (mkQuery h).matchesRow t = true ∧ t.filename = abspath fname ∧ t.id = nid := by
  unfold TestData.fromFile at ht
  rw [hf] at ht
  simp only [Option.map_some', Option.some.injEq] at ht
  subst ht
  refine ⟨?_, rfl, rfl⟩
  simp [Query.matchesRow, mkQuery]

/-- Shape of the replace branch (`db.py` lines 188-193): with `replace` set
and a first matching row `r`, the loop body erases `r`, appends the fresh
row, and commits, for either value of `force`. -/
theorem add_one_replace_eq (fs : String → Option Header) (file_path fname : String)
    (force : Bool) (db : DB) (h : Header) (r t : TestData)
    (hf : fs fname = some h)
    (hfind : db.rows.find? (mkQuery h).matchesRow = some r)
    (hfrom : TestData.fromFile fs db.nextId fname = some t) :
    ∃ m, add_one fs file_path fname force true db
      = Except.ok ({ rows := db.rows.eraseP (fun x => x == r) ++ [t],
                     nextId := db.nextId + 1 }, m) := by
  have hmt : (mkQuery h).matchesRow t = true :=
    (fromFile_fields fs db.nextId fname h t hf hfrom).1
  unfold add_one data_exists
  rw [hf]
  simp only [Query.firstRun, Query.countRun, Bool.or_true, Bool.not_true, Bool.and_false,
    Bool.false_eq_true, if_false, ite_true, hfind, hfrom]
  have hmem : t ∈ db.rows.eraseP (fun x => x == r) ++ [t] := by simp
  cases hfind2 : (db.rows.eraseP (fun x => x == r) ++ [t]).find? (mkQuery h).matchesRow with
  | none =>
    exfalso
    have hsome : ((db.rows.eraseP (fun x => x == r) ++ [t]).find? (mkQuery h).matchesRow).isSome :=
      List.find?_isSome.mpr ⟨t, hmem, hmt⟩
    rw [hfind2] at hsome
    simp at hsome
  | some r2 =>
    exact ⟨_, rfl⟩

/-- C4: on a catalog with exactly one record matching the file's duplicate
key, the replace branch leaves the record count unchanged, removes the old
record (and with it the old filename), and the newly present record's
filename is the ingested file's path. -/
theorem C4_replace_swaps_one (fs : String → Option Header) (file_path fname : String)
    (force : Bool) (db : DB) (h : Header)
    (hwf : db.WF) (hf : fs fname = some h)
    (hone : (db.rows.filter (mkQuery h).matchesRow).length = 1) :
    ∃ r t db2 m,
      db.rows.find? (mkQuery h).matchesRow = some r
      ∧ TestData.fromFile fs db.nextId fname = some t
      ∧ add_one fs file_path fname force true db = Except.ok (db2, m)
      ∧ db2.rows.length = db.rows.length
      ∧ r ∉ db2.rows
      ∧ t ∈ db2.rows
      ∧ t.filename = abspath fname := by
  obtain ⟨r, hfind, hrmem, hpr⟩ := find?_of_filter_ne_zero
    (l := db.rows) (p := (mkQuery h).matchesRow) (by rw [hone]; exact one_ne_zero)
  cases hfrom : TestData.fromFile fs db.nextId fname with
  | none =>
    unfold TestData.fromFile at hfrom
    rw [hf] at hfrom
    simp at hfrom
  | some t =>
    obtain ⟨m, hadd⟩ := add_one_replace_eq fs file_path fname force db h r t hf hfind hfrom
    obtain ⟨hmt, hfname, hid⟩ := fromFile_fields fs db.nextId fname h t hf hfrom
    refine ⟨r, t, _, m, hfind, rfl, hadd, ?_, ?_, ?_, hfname⟩
    · simp only [List.length_append, List.length_cons, List.length_nil]
      rw [List.length_eraseP_of_mem hrmem (by simp)]
      have := List.length_pos_of_mem hrmem
      omega
    · intro hmem
      rcases List.mem_append.mp hmem with hm1 | hm2
      · exact not_mem_eraseP_of_filter_one hpr hone hfind hm1
      · have hrt : r = t := by simpa using hm2
        have hlt := hwf r hrmem
        rw [hrt, hid] at hlt
        exact lt_irrefl _ hlt
    · simp

/-- C4 witness: a catalog holding exactly the row for `a.fits`; replacing it
with a fresh ingestion of `a.fits` keeps the count at one, drops the old
row, and stores the file's path on the new row. -/
theorem C4_replace_swaps_one_witness :
    ∃ r t db2 m,
      (List.find? (mkQuery hA).matchesRow [rowA0]) = some r
      ∧ TestData.fromFile fsA 1 "a.fits" = some t
      ∧ add_one fsA "a.fits" "a.fits" false true { rows := [rowA0], nextId := 1 }
          = Except.ok (db2, m)
      ∧ db2.rows.length = [rowA0].length
      ∧ r ∉ db2.rows
      ∧ t ∈ db2.rows
      ∧ t.filename = abspath "a.fits" :=
  C4_replace_swaps_one fsA "a.fits" "a.fits" false { rows := [rowA0], nextId := 1 } hA
    (by intro r hr; simp only [List.mem_singleton] at hr; subst hr; decide)
    rfl (by decide)

/-- C9: when both `force` and `replace` are set and a duplicate-key match
exists, the replace branch takes precedence: the first matching record is
deleted and a fresh one inserted, so the record count does not increase. -/
theorem C9_force_replace_precedence (fs : String → Option Header) (file_path fname : String)
    (db : DB) (h : Header) (hf : fs fname = some h)
    (hmatch : (db.rows.filter (mkQuery h).matchesRow).length ≠ 0) :
    ∃ r t db2 m,
      db.rows.find? (mkQuery h).matchesRow = some r
      ∧ add_one fs file_path fname true true db = Except.ok (db2, m)
      ∧ db2.rows = db.rows.eraseP (fun x => x == r) ++ [t]
      ∧ db2.rows.length = db.rows.length := by
  obtain ⟨r, hfind, hrmem, hpr⟩ := find?_of_filter_ne_zero hmatch
  cases hfrom : TestData.fromFile fs db.nextId fname with
  | none =>
    unfold TestData.fromFile at hfrom
    rw [hf] at hfrom
    simp at hfrom
  | some t =>
    obtain ⟨m, hadd⟩ := add_one_replace_eq fs file_path fname true db h r t hf hfind hfrom
    refine ⟨r, t, _, m, hfind, hadd, rfl, ?_⟩
    simp only [List.length_append, List.length_cons, List.length_nil]
    rw [List.length_eraseP_of_mem hrmem (by simp)]
    have := List.length_pos_of_mem hrmem
    omega

/-- C9 witness: forcing with `replace` also set onto a catalog already
holding the matching row for `a.fits` keeps the count at one. -/
theorem C9_force_replace_precedence_witness :
    ∃ r t db2 m,
      (List.find? (mkQuery hA).matchesRow [rowA0]) = some r
      ∧ add_one fsA "a.fits" "a.fits" true true { rows := [rowA0], nextId := 1 }
          = Except.ok (db2, m)
      ∧ db2.rows = [rowA0].eraseP (fun x => x == r) ++ [t]
      ∧ db2.rows.length = [rowA0].length :=
  C9_force_replace_precedence fsA "a.fits" "a.fits" { rows := [rowA0], nextId := 1 } hA
    rfl (by decide)

/-- Unfolding: a loop iteration whose body raises aborts with the state the
body had committed. -/
theorem add_test_data_cons_error (fs : String → Option Header) (file_path : String)
    (force replace : Bool) (fname : String) (rest : List String) (db dbe : DB) (e : String)
    (hone : add_one fs file_path fname force replace db = Except.error (e, dbe)) :
    add_test_data fs file_path force replace (fname :: rest) db = (dbe, [], some e) := by
  simp [add_test_data, hone]

/-- Unfolding: a successful loop iteration continues with the remaining
matches from the committed state. -/
theorem add_test_data_cons_ok (fs : String → Option Header) (file_path : String)
    (force replace : Bool) (fname : String) (rest : List String) (db db1 : DB) (m : String)
    (hone : add_one fs file_path fname force replace db = Except.ok (db1, m)) :
    add_test_data fs file_path force replace (fname :: rest) db
      = ((add_test_data fs file_path force replace rest db1).fst,
         m :: (add_test_data fs file_path force replace rest db1).snd.fst,
         (add_test_data fs file_path force replace rest db1).snd.snd) := by
  simp [add_test_data, hone]

/-- C3 (amended): the loop has no per-item exception handler, so the first
unreadable header aborts processing of the remaining glob matches; records
committed for the earlier matches are preserved, and the aborting error is
the header-read failure of the offending file. -/
theorem C3_amended_glob_abort (fs : String → Option Header) (file_path : String)
    (force replace : Bool) (pre : List String) (bad : String) (rest : List String)
    (db db1 : DB) (msgs : List String)
    (hpre : add_test_data fs file_path force replace pre db = (db1, msgs, none))
    (hbad : fs bad = none) :
    add_test_data fs file_path force replace (pre ++ bad :: rest) db
      = (db1, msgs, some ("HeaderReadError: " ++ bad)) := by
  induction pre generalizing db msgs with
  | nil =>
    simp only [add_test_data, Prod.mk.injEq] at hpre
    obtain ⟨h1, h2, -⟩ := hpre
    subst h1
    subst h2
    rw [List.nil_append]
    exact add_test_data_cons_error fs file_path force replace bad rest db db _
      (by unfold add_one data_exists; rw [hbad])
  | cons a pre ih =>
    rw [List.cons_append]
    cases hone : add_one fs file_path a force replace db with
    | error e =>
      obtain ⟨e1, dbe⟩ := e
      rw [add_test_data_cons_error fs file_path force replace a pre db dbe e1 hone] at hpre
      simp at hpre
    | ok v =>
      obtain ⟨dbA, m⟩ := v
      rw [add_test_data_cons_ok fs file_path force replace a pre db dbA m hone] at hpre
      simp only [Prod.mk.injEq] at hpre
      obtain ⟨h1, h2, h3⟩ := hpre
      have hR : add_test_data fs file_path force replace pre dbA
          = (db1, (add_test_data fs file_path force replace pre dbA).snd.fst, none) := by
        rw [← h1, ← h3]
      have hfin := ih dbA (add_test_data fs file_path force replace pre dbA).snd.fst hR
      rw [add_test_data_cons_ok fs file_path force replace a (pre ++ bad :: rest) db dbA m hone]
      rw [hfin]
      simp only [Prod.mk.injEq]
      exact ⟨trivial, h2, trivial⟩

/-- C3 witness: a three-match glob whose second file is unreadable; the
record committed for the first match survives the abort. -/
theorem C3_amended_glob_abort_witness :
    add_test_data fsA "*.fits" false false (["a.fits"] ++ "x.fits" :: ["c.fits"]) DB.empty
      = ({ rows := [rowA0], nextId := 1 }, ["Added *.fits to database"],
         some ("HeaderReadError: " ++ "x.fits")) :=
  C3_amended_glob_abort fsA "*.fits" false false ["a.fits"] "x.fits" ["c.fits"]
    DB.empty { rows := [rowA0], nextId := 1 } ["Added *.fits to database"] rfl rfl

/-- C3 counterexample to the claim as stated: with matches `a.fits`,
`x.fits`, `c.fits` where only `x.fits` is unreadable, the claim requires
`c.fits` to be ingested; instead the loop aborts on `x.fits` and the
catalog ends up holding only the record for `a.fits`. -/
theorem C3_counterexample :
    ((add_test_data fsA "*.fits" false false ["a.fits", "x.fits", "c.fits"] DB.empty).fst.rows.map
        TestData.filename = ["a.fits"])
    ∧ (add_test_data fsA "*.fits" false false ["a.fits", "x.fits", "c.fits"] DB.empty).snd.snd
        = some "HeaderReadError: x.fits" :=
  ⟨rfl, rfl⟩
